import Mathlib

/-!
Verification development for the hgt2png heightmap converter
(`src/hgt2png.c`).  The definitions below are a shallow embedding of the
elevation-processing pipeline: raw-sample decoding (`processElevationValue`),
the pre-scan min/max/NoData pass of `main`, the tone-mapping render loop of
`processFileWorker`, the procedural-detail synthesizer (`AddProceduralDetail`
with `BilinearInterpolate`, `SimpleNoise`, `FractalNoise`,
`CalculateLocalSlope`, `GetHeightTypeFactor`), the filename-based dimension
parsing of `main`, and the Alpine vegetation-density classifier
(`calculate_vegetation_density_alpine`).

Modelling conventions:
* C `float` arithmetic is embedded as exact rational (`ℚ`) arithmetic;
  decimal float literals of the source (`0.5f`, `1.001f`, `0.005f`, ...)
  are taken as the exact rationals they denote.  Transcendental libm calls
  (`sqrtf` inside `CalculateLocalSlope`) are abstracted as an explicit
  function parameter; no theorem below depends on its values.
* C `int16_t` values are embedded as `ℤ`; where byte order matters the
  16-bit two's-complement bit pattern is made explicit.  The host is taken
  to be little-endian (the source is built for x86, `-mavx2`), so `ntohs`
  swaps the two bytes of a 16-bit value.
* C `int` intermediates inside the noise hash wrap modulo `2 ^ 32`
  (two's-complement); the final mask `& 0x7fffffff` is `% 2 ^ 31` on the
  bit pattern.
* `size_t` is embedded as `ℕ` together with the explicit bound
  `SIZE_MAX = 2 ^ 64 - 1` used by `safe_multiply_size_t`; `malloc` is
  assumed to succeed whenever the overflow checks pass, so
  `safe_malloc_pixels` fails exactly on overflow.  Where a `size_t` value is
  passed to a parameter declared `int` (the dimensions at the
  `AddProceduralDetail` call site) the gcc conversion — reduction modulo
  `2 ^ 32`, two's-complement reinterpretation — is applied explicitly
  (`cIntOfSizeT`, `sizeTOfCInt`).
* C casts between float and integer types truncate toward zero (`truncQ`).
-/

/-- `SRTM3` raster-type tag (1201×1201), from `const int SRTM3 = 1201`. -/
def SRTM3 : Int := 1201

/-- `SRTM1` raster-type tag (3601×3601), from `const int SRTM1 = 3601`. -/
def SRTM1 : Int := 3601

/-- `SRTM_UNKNOWN` raster-type tag, from `const int SRTM_UNKNOWN = -1`. -/
def SRTM_UNKNOWN : Int := -1

/-- The NoData sentinel `(int16_t)0x8000 = -32768` (`NODATA_VALUE_BE`). -/
def NODATA_VALUE_BE : Int := -32768

/-- Replacement value stored for NoData samples (`NODATA_REPLACEMENT`). -/
def NODATA_REPLACEMENT : Int := 0

/-- `_MAX_HEIGHT`: upper clamp bound for decoded elevations. -/
def MAX_HEIGHT : Int := 6000

/-- Two's-complement 16-bit pattern of an `int16_t` value. -/
def toUInt16pattern (v : Int) : Nat := (v % 65536).toNat

/-- `int16_t` value of a 16-bit two's-complement pattern. -/
def ofUInt16pattern (n : Nat) : Int :=
  if n % 65536 < 32768 then (n % 65536 : Int) else (n % 65536 : Int) - 65536

/-- `ntohs` on a little-endian host: swap the two bytes of a 16-bit value. -/
def ntohs16 (n : Nat) : Nat := (n % 256) * 256 + (n / 256) % 256

/-- The `int16_t` obtained by `fread`-ing, on the little-endian host, the
big-endian file sample whose 16-bit pattern is `bePattern`: the bytes land
swapped in host memory. -/
def rawFromFilePattern (bePattern : Nat) : Int :=
  ofUInt16pattern (ntohs16 bePattern)

/-- `isNoDataValue` (src lines 1621-1631): NoData detection only for the two
SRTM raster types, by comparison with the sentinel `-32768`. -/
def isNoDataValue (value : Int) (srtmType : Int) : Bool :=
  if srtmType ≠ SRTM3 ∧ srtmType ≠ SRTM1 then false
  else value == NODATA_VALUE_BE

/-- `processElevationValue` (src lines 1634-1660): endian conversion for SRTM
rasters, NoData detection after the conversion, then clamping to
`[0, MAX_HEIGHT]`.  The C `int *noDataCount` out-parameter is modelled by the
second component: the amount the counter is incremented (0 or 1). -/
def processElevationValue (rawValue : Int) (srtmType : Int) : Int × Nat :=
  let hostValue : Int :=
    if srtmType == SRTM3 || srtmType == SRTM1 then
      ofUInt16pattern (ntohs16 (toUInt16pattern rawValue))
    else rawValue
  if isNoDataValue hostValue srtmType then
    (NODATA_REPLACEMENT, 1)
  else
    let h1 := if hostValue < 0 then 0 else hostValue
    let h2 := if h1 > MAX_HEIGHT then MAX_HEIGHT else h1
    (h2, 0)

/-- State of the pre-scan loop of `main` (src lines 625-642): the running
per-file valid-sample minimum and maximum (`iCurrentMinElevation`,
`iCurrentMaxElevation`) and the per-file NoData counter. -/
structure PrescanAcc where
  currentMin : Int
  currentMax : Int
  noDataCount : Nat
deriving DecidableEq

/-- One iteration of the pre-scan loop (src lines 629-642): decode the sample,
accumulate the NoData count, and update min/max only when the decoded value
differs from `NODATA_REPLACEMENT`. -/
def prescanStep (srtmType : Int) (acc : PrescanAcc) (raw : Int) : PrescanAcc :=
  let r := processElevationValue raw srtmType
  let acc1 : PrescanAcc := { acc with noDataCount := acc.noDataCount + r.2 }
  if r.1 ≠ NODATA_REPLACEMENT then
    { acc1 with
      currentMin := if r.1 < acc1.currentMin then r.1 else acc1.currentMin
      currentMax := if r.1 > acc1.currentMax then r.1 else acc1.currentMax }
  else acc1

/-- The pre-scan pass over one file's samples, starting from
`iCurrentMinElevation = 9999`, `iCurrentMaxElevation = 0`,
`fi[i].noDataCount = 0` (src lines 625-642). -/
def prescanFold (srtmType : Int) (raws : List Int) : PrescanAcc :=
  raws.foldl (prescanStep srtmType) ⟨9999, 0, 0⟩

/-- The per-file fields of `struct tag_FileInfoSRTM` relevant to the recorded
min/max and NoData statistics. -/
structure FileInfoRec where
  iMinElevation : Int
  iMaxElevation : Int
  noDataCount : Nat
deriving DecidableEq

/-- What the pre-scan of `main` stores for one file: both elevation fields are
assigned `0` up front (src lines 477-478) and are never written again during
the scan; only the NoData counter is accumulated (via `&fi[i].noDataCount`).
The per-file valid-sample min/max live only in the locals
`iCurrentMin/MaxElevation`, returned here alongside the record. -/
def prescanFileInfo (srtmType : Int) (raws : List Int) : FileInfoRec × PrescanAcc :=
  let acc := prescanFold srtmType raws
  ({ iMinElevation := 0, iMaxElevation := 0, noDataCount := acc.noDataCount }, acc)

/-- The pair `("original_min", "original_max")` that `writeMetadataFile`
(src lines 2017-2021, 2067) reads from the per-file record. -/
def metadataOriginalRange (f : FileInfoRec) : Int × Int :=
  (f.iMinElevation, f.iMaxElevation)

/-- Initial values of the globals `iOverallMinElevation = 9999`,
`iOverallMaxElevation = 0` (src lines 463-464). -/
def overallInit : Int × Int := (9999, 0)

/-- Merging one file's pre-scan min/max into the overall range
(src lines 644-647). -/
def mergeOverall (overall : Int × Int) (acc : PrescanAcc) : Int × Int :=
  (if acc.currentMin < overall.1 then acc.currentMin else overall.1,
   if acc.currentMax > overall.2 then acc.currentMax else overall.2)

/-- Truncation toward zero of a rational, the behaviour of C casts from a
floating value to an integer type. -/
def truncQ (q : ℚ) : Int := if q < 0 then -⌊-q⌋ else ⌊q⌋

/-- C cast of an in-range nonnegative float to an unsigned integer type. -/
def cCastUnsigned (q : ℚ) : Nat := (truncQ q).toNat

/-- `ApplyCurveMapping` (src lines 1410-1453) specialised to `CURVE_LINEAR`
and `gamma = 1`, the configuration exercised by the claims: clip the input to
`[0,1]`, take the linear curve (identity), skip the gamma branch
(`gamma != 1.0f` is false), clip the output to `[0,1]`.  The `CURVE_LOG`
branch (`logf`) and `gamma ≠ 1` branch (`powf`) are transcendental float
operations with no exact rational counterpart and are not exercised by any
claim, so they are outside this embedding. -/
def ApplyCurveMapping_linear_gamma1 (normalizedValue : ℚ) : ℚ :=
  let v := if normalizedValue < 0 then 0
           else if normalizedValue > 1 then 1 else normalizedValue
  let result := v
  if result < 0 then 0 else if result > 1 then 1 else result

/-- Normalization of a decoded elevation to `[0,1]` in the render loop
(src lines 1021-1034): `0.5` fallback unless `effectiveMaxHeight >
effectiveMinHeight`, otherwise clamp into the effective range and divide. -/
def normalizeElevation (eMin eMax : Int) (v : Int) : ℚ :=
  if eMax > eMin then
    let c := if v < eMin then eMin else if v > eMax then eMax else v
    ((c - eMin : Int) : ℚ) / ((eMax - eMin : Int) : ℚ)
  else (1 : ℚ) / 2

/-- Effective min/max heights used by the render pass (src lines 993-1002):
a `-1` option means auto-detection from the overall range, and a degenerate
custom range (`min ≥ max`) falls back to the overall range. -/
def effectiveHeights (optMin optMax : Int) (overall : Int × Int) : Int × Int :=
  let eMin := if optMin ≠ -1 then optMin else overall.1
  let eMax := if optMax ≠ -1 then optMax else overall.2
  if eMin ≥ eMax then overall else (eMin, eMax)

/-- An 8-bit RGBA output pixel (`struct tag_RGBA`). -/
structure RGBApix where
  r : Nat
  g : Nat
  b : Nat
  a : Nat
deriving DecidableEq

/-- A 16-bit grayscale+alpha output pixel (`struct tag_RGBA16`). -/
structure YA16pix where
  y : Nat
  a : Nat
deriving DecidableEq

/-- One iteration of the render loop of `processFileWorker` for the 8-bit RGB
output format with `enableDetail == false` (src lines 1008-1037 and
1060-1065): re-decode the raw sample, normalize, apply the curve, scale to
`[0,255]` and truncate.  The single returned channel value is stored into all
of `r`, `g`, `b`. -/
def renderPixelRGB (srtmType eMin eMax : Int) (raw : Int) : Nat :=
  let v := (processElevationValue raw srtmType).1
  let curved := ApplyCurveMapping_linear_gamma1 (normalizeElevation eMin eMax v)
  cCastUnsigned (curved * 255)

/-- One iteration of the render loop for the 8-bit RGBA output format
(`alphaNoData` set, `output16bit` clear; src lines 1008-1037 and 1051-1058),
with `enableDetail == false`: alpha is `0` exactly when the decoded value
equals `NODATA_REPLACEMENT`, else `255`. -/
def renderPixelRGBA8 (srtmType eMin eMax : Int) (raw : Int) : RGBApix :=
  let v := (processElevationValue raw srtmType).1
  let isNoDataPixel := v == NODATA_REPLACEMENT
  let curved := ApplyCurveMapping_linear_gamma1 (normalizeElevation eMin eMax v)
  let pixelValue := cCastUnsigned (curved * 255)
  ⟨pixelValue, pixelValue, pixelValue, if isNoDataPixel then 0 else 255⟩

/-- One iteration of the render loop for the 16-bit grayscale+alpha output
format (src lines 1039-1045), with `enableDetail == false`: alpha is `0`
exactly when the decoded value equals `NODATA_REPLACEMENT`, else `65535`. -/
def renderPixelYA16 (srtmType eMin eMax : Int) (raw : Int) : YA16pix :=
  let v := (processElevationValue raw srtmType).1
  let isNoDataPixel := v == NODATA_REPLACEMENT
  let curved := ApplyCurveMapping_linear_gamma1 (normalizeElevation eMin eMax v)
  ⟨cCastUnsigned (curved * 65535), if isNoDataPixel then 0 else 65535⟩

/-- End-to-end single-file pipeline for the 8-bit RGB format with
`enableDetail == false`, Linear curve, `gamma = 1`: the pre-scan of `main`
feeds the overall range (one file, so merged into the initial globals), the
worker computes the effective heights, and the render loop maps every raw
sample to its gray channel value. -/
def processFileNoDetailRGB (srtmType optMin optMax : Int) (raws : List Int) :
    List Nat :=
  let overall := mergeOverall overallInit (prescanFold srtmType raws)
  let eff := effectiveHeights optMin optMax overall
  raws.map (renderPixelRGB srtmType eff.1 eff.2)

/-- The integer hash of `SimpleNoise` (src lines 1272-1277) on 32-bit
two's-complement patterns: `n = x + y*57 + seed*131`, `n = (n << 13) ^ n`,
then `(n * (n*n*15731 + 789221) + 1376312589) & 0x7fffffff`.  All C `int`
operations wrap modulo `2 ^ 32`; the final mask keeps the low 31 bits. -/
def simpleNoiseHash (x y seed : Int) : Nat :=
  let n : Nat := ((x + y * 57 + seed * 131) % (2 ^ 32)).toNat
  let n1 : Nat := ((n * 2 ^ 13) % 2 ^ 32) ^^^ n
  let m : Nat := (n1 * ((((n1 * n1) % 2 ^ 32) * 15731 + 789221) % 2 ^ 32)
                  + 1376312589) % 2 ^ 32
  m % 2 ^ 31

/-- `SimpleNoise` (src lines 1272-1277): `1 - hash / 1073741824`, a value in
`(-1, 1]`. -/
def SimpleNoise (x y seed : Int) : ℚ :=
  1 - (simpleNoiseHash x y seed : ℚ) / 1073741824

/-- `BilinearNoiseInterpolate` (src lines 1280-1296): sample `SimpleNoise` at
the four lattice points around `(x, y)` and blend bilinearly.
`x0 = (int)floorf(x)` is the mathematical floor. -/
def BilinearNoiseInterpolate (x y : ℚ) (seed : Int) : ℚ :=
  let x0 : Int := ⌊x⌋
  let y0 : Int := ⌊y⌋
  let fx : ℚ := x - x0
  let fy : ℚ := y - y0
  let v00 := SimpleNoise x0 y0 seed
  let v10 := SimpleNoise (x0 + 1) y0 seed
  let v01 := SimpleNoise x0 (y0 + 1) seed
  let v11 := SimpleNoise (x0 + 1) (y0 + 1) seed
  let v0 := v00 * (1 - fx) + v10 * fx
  let v1 := v01 * (1 - fx) + v11 * fx
  v0 * (1 - fy) + v1 * fy

/-- The accumulation loop of `FractalNoise` (src lines 1299-1316), recursing
on the number of remaining octaves: returns `(total, maxValue)`.  `i` is the
octave index (the per-octave seed is `seed + i`), `frequency` doubles and
`amplitude` decays by `persistence` each octave. -/
def fractalAcc (x y persistence : ℚ) (seed : Int) :
    Nat → Nat → ℚ → ℚ → ℚ × ℚ
  | 0, _, _, _ => (0, 0)
  | k + 1, i, frequency, amplitude =>
    let v := BilinearNoiseInterpolate (x * frequency) (y * frequency)
      (seed + (i : Int))
    let rest := fractalAcc x y persistence seed k (i + 1) (frequency * 2)
      (amplitude * persistence)
    (v * amplitude + rest.1, amplitude + rest.2)

/-- `FractalNoise` (src lines 1299-1316): the octave sum normalized by the
total amplitude, starting at frequency `scale` and amplitude `1`. -/
def FractalNoise (x y : ℚ) (octaves : Nat) (persistence scale : ℚ)
    (seed : Int) : ℚ :=
  let tm := fractalAcc x y persistence seed octaves 0 scale 1
  tm.1 / tm.2

/-- `BilinearInterpolate` (src lines 1319-1350) over a flat row-major buffer:
corner indices from truncation, clamped to the raster, then two lerps and a
truncating cast back to `short int`. -/
def BilinearInterpolate (data : Nat → Int) (width height : Nat) (x y : ℚ) :
    Int :=
  let x1 : Int := truncQ x
  let y1 : Int := truncQ y
  let x2 : Int := if x1 + 1 ≥ (width : Int) then (width : Int) - 1 else x1 + 1
  let y2 : Int := if y1 + 1 ≥ (height : Int) then (height : Int) - 1 else y1 + 1
  let x1 : Int := if x1 < 0 then 0 else x1
  let y1 : Int := if y1 < 0 then 0 else y1
  let fx : ℚ := x - x1
  let fy : ℚ := y - y1
  let p1 : ℚ := data (y1 * width + x1).toNat
  let p2 : ℚ := data (y1 * width + x2).toNat
  let p3 : ℚ := data (y2 * width + x1).toNat
  let p4 : ℚ := data (y2 * width + x2).toNat
  let i1 := p1 * (1 - fx) + p2 * fx
  let i2 := p3 * (1 - fx) + p4 * fx
  truncQ (i1 * (1 - fy) + i2 * fy)

/-- `GetPixelDistance` (src lines 1354-1369). -/
def GetPixelDistance (srtmType : Int) : ℚ :=
  if srtmType == SRTM3 then 60
  else if srtmType == SRTM1 then 180
  else 60

/-- `CalculateLocalSlope` (src lines 1371-1392).  `sqrtq` abstracts the libm
`sqrt`; no theorem below depends on its values (the claims only exercise the
boundary branch or multiply the slope by a zero detail intensity). -/
def CalculateLocalSlope (sqrtq : ℚ → ℚ) (data : Nat → Int)
    (width height : Nat) (x y : ℚ) (srtmType : Int) : ℚ :=
  let ix : Int := truncQ x
  let iy : Int := truncQ y
  if ix ≤ 0 ∨ ix ≥ (width : Int) - 1 ∨ iy ≤ 0 ∨ iy ≥ (height : Int) - 1 then 0
  else
    let left : ℚ := data (iy * width + (ix - 1)).toNat
    let right : ℚ := data (iy * width + (ix + 1)).toNat
    let top : ℚ := data ((iy - 1) * width + ix).toNat
    let bottom : ℚ := data ((iy + 1) * width + ix).toNat
    let pixelDistance := GetPixelDistance srtmType
    let dx := (right - left) / pixelDistance
    let dy := (bottom - top) / pixelDistance
    let slope := sqrtq (dx * dx + dy * dy) / 100
    if slope > 1 then 1 else slope

/-- `GetHeightTypeFactor` (src lines 1395-1407). -/
def GetHeightTypeFactor (height : Int) : ℚ :=
  if height < 100 then 1 / 2
  else if height < 500 then 7 / 10
  else if height < 1500 then 1
  else if height < 3000 then 4 / 5
  else 3 / 10

/-- The per-destination-pixel computation of `AddProceduralDetail`
(src lines 1540-1582): source coordinates `x/S`, `y/S` clamped below
`dim - 1` (to `dim - 1.001f`), bilinear base height, three fractal-noise
bands combined 50/30/20, scaled by `detailIntensity`, a slope multiplier
`0.3 + 0.7·slope`, and the height-type factor; the sum is clamped to
`[0, MAX_HEIGHT]` and rounded by adding `0.5` before the truncating cast. -/
def addProcDetailPixel (sqrtq : ℚ → ℚ) (data : Nat → Int)
    (originalWidth originalHeight : Nat) (scaleFactor : Nat)
    (detailIntensity : ℚ) (seed : Int) (srtmType : Int) (x y : Nat) : Int :=
  let srcX0 : ℚ := (x : ℚ) / (scaleFactor : ℚ)
  let srcY0 : ℚ := (y : ℚ) / (scaleFactor : ℚ)
  let srcX : ℚ := if srcX0 ≥ (originalWidth : ℚ) - 1
                  then (originalWidth : ℚ) - 1001 / 1000 else srcX0
  let srcY : ℚ := if srcY0 ≥ (originalHeight : ℚ) - 1
                  then (originalHeight : ℚ) - 1001 / 1000 else srcY0
  let baseHeight := BilinearInterpolate data originalWidth originalHeight
    srcX srcY
  let detailNoise1 := FractalNoise ((x : ℚ) * (5 / 1000)) ((y : ℚ) * (5 / 1000))
    3 (1 / 2) 1 seed
  let detailNoise2 := FractalNoise ((x : ℚ) * (2 / 100)) ((y : ℚ) * (2 / 100))
    4 (3 / 5) 1 (seed + 100)
  let detailNoise3 := FractalNoise ((x : ℚ) * (8 / 100)) ((y : ℚ) * (8 / 100))
    2 (2 / 5) 1 (seed + 200)
  let combinedNoise := detailNoise1 * (1 / 2) + detailNoise2 * (3 / 10)
    + detailNoise3 * (1 / 5)
  let localSlope := CalculateLocalSlope sqrtq data originalWidth originalHeight
    srcX srcY srtmType
  let slopeMultiplier := 3 / 10 + localSlope * (7 / 10)
  let heightFactor := GetHeightTypeFactor baseHeight
  let detailVariation := combinedNoise * detailIntensity * slopeMultiplier
    * heightFactor
  let finalHeight : ℚ := (baseHeight : ℚ) + detailVariation
  let finalHeight := if finalHeight < 0 then 0 else finalHeight
  let finalHeight := if finalHeight > (MAX_HEIGHT : ℚ) then (MAX_HEIGHT : ℚ)
                     else finalHeight
  truncQ (finalHeight + 1 / 2)

/-- `SIZE_MAX` for the 64-bit `size_t` of the target platform. -/
def SIZE_MAX : Nat := 2 ^ 64 - 1

/-- `safe_multiply_size_t` (src lines 221-237): `some (a*b)` on success,
`none` when `a * b` would exceed `SIZE_MAX`. -/
def safe_multiply_size_t (a b : Nat) : Option Nat :=
  if a = 0 ∨ b = 0 then some 0
  else if a > SIZE_MAX / b then none
  else some (a * b)

/-- The overflow checks of `safe_malloc_pixels` (src lines 240-283):
`width*height` and then `pixel_count*element_size` must both fit in `size_t`.
Allocation itself is assumed to succeed when the checks pass. -/
def safe_malloc_pixels_ok (width height element_size : Nat) : Bool :=
  match safe_multiply_size_t width height with
  | none => false
  | some pixel_count => (safe_multiply_size_t pixel_count element_size).isSome

/-- `AddProceduralDetail` (src lines 1497-1586): overflow-checked new
dimensions, overflow-checked allocation, then the per-pixel loop.  Returns
`none` exactly when one of the size computations overflows (the C function
returns `NULL`); on success the new raster is the per-pixel function together
with its dimensions `(W·S, H·S)`.  The C function declares its dimension and
scale parameters `int`; the `originalWidth`/`originalHeight`/`scaleFactor`
arguments here stand for the `(size_t)originalWidth` (etc.) values those
ints convert to, which is how every arithmetic use inside the function body
reads them — the size checks use the explicit `(size_t)` casts, and the
pixel loop is reached only when the checks pass, i.e. for small nonnegative
ints on which `int` and `size_t` agree.  The `size_t → int` truncation at
the `processFileWorker` call site is applied by `workerDetailStage` below. -/
def AddProceduralDetail (sqrtq : ℚ → ℚ) (data : Nat → Int)
    (originalWidth originalHeight : Nat) (scaleFactor : Nat)
    (detailIntensity : ℚ) (seed : Int) (srtmType : Int) :
    Option (Nat × Nat × (Nat → Nat → Int)) :=
  match safe_multiply_size_t originalWidth scaleFactor,
        safe_multiply_size_t originalHeight scaleFactor with
  | some newWidth, some newHeight =>
    if safe_malloc_pixels_ok newWidth newHeight 2 then
      some (newWidth, newHeight,
        fun x y => addProcDetailPixel sqrtq data originalWidth originalHeight
          scaleFactor detailIntensity seed srtmType x y)
    else none
  | _, _ => none

/-- Outcome of the detail-generation phase of `processFileWorker` for one
file: the raster dimensions it continues with, whether the worker set the
shared error flag (`*globalResult = 1` and early return), and whether it fell
back to the original data. -/
structure DetailStageResult where
  width : Nat
  height : Nat
  failed : Bool
  usedOriginal : Bool
deriving DecidableEq

/-- Conversion of a `size_t` value to C `int` on the gcc target: reduce
modulo `2 ^ 32` and interpret as two's complement.  This conversion happens
at the `processFileWorker` call of `AddProceduralDetail` (src line 868),
whose `originalWidth`/`originalHeight` parameters are declared `int` while
`fi->iWidth`/`fi->iHeight` are `size_t`. -/
def cIntOfSizeT (n : Nat) : Int :=
  if n % 2 ^ 32 < 2 ^ 31 then (n % 2 ^ 32 : Int)
  else (n % 2 ^ 32 : Int) - 2 ^ 32

/-- Conversion of a C `int` back to `size_t` (reduction modulo `2 ^ 64`), as
in the `(size_t)originalWidth` casts inside `AddProceduralDetail`
(src lines 1504-1505). -/
def sizeTOfCInt (v : Int) : Nat := (v % 2 ^ 64).toNat

/-- The detail-generation phase of `processFileWorker` (src lines 848-909):
`AddProceduralDetail` receives `fi->iWidth`/`fi->iHeight` through the
`size_t → int` conversion of its parameter types and reads them back as
`size_t` (`sizeTOfCInt (cIntOfSizeT _)`).  If it returns data, the worker
adopts it, scales the original `size_t` dimensions in place
(`fi->iWidth *= opts->scaleFactor`, an unchecked `size_t` multiply, hence
`% 2 ^ 64`) and re-checks the new file size, failing the file
(`*globalResult = 1`) on overflow there; if it returns `NULL`, the worker
prints a warning and continues with the original data — the file is NOT
failed. -/
def workerDetailStage (sqrtq : ℚ → ℚ) (data : Nat → Int) (width height : Nat)
    (scaleFactor : Nat) (detailIntensity : ℚ) (seed : Int) (srtmType : Int) :
    DetailStageResult :=
  match AddProceduralDetail sqrtq data
        (sizeTOfCInt (cIntOfSizeT width)) (sizeTOfCInt (cIntOfSizeT height))
        scaleFactor detailIntensity seed srtmType with
  | some (_, _, _) =>
    let newWidth := width * scaleFactor % 2 ^ 64
    let newHeight := height * scaleFactor % 2 ^ 64
    match safe_multiply_size_t newWidth newHeight with
    | some newPixels =>
      match safe_multiply_size_t newPixels 2 with
      | some _ => ⟨newWidth, newHeight, false, false⟩
      | none => ⟨newWidth, newHeight, true, false⟩
    | none => ⟨newWidth, newHeight, true, false⟩
  | none => ⟨width, height, false, true⟩

/-- `VegetationParams` (src lines 91-102), float fields as exact rationals. -/
structure VegetationParams where
  enabled : Bool
  minElevation : ℚ
  maxElevation : ℚ
  maxSlope : ℚ
  aspectModifier : ℚ
  drainageBonus : ℚ
  treeLine : ℚ
  bushLine : ℚ
  grassLine : ℚ
deriving DecidableEq

/-- `initialize_alpine_biome` (src lines 2100-2111) with the `ALPINE_*`
constants (src lines 153-160). -/
def alpineParams : VegetationParams :=
  { enabled := true
    minElevation := 700
    maxElevation := 2000
    maxSlope := 60
    aspectModifier := 3 / 10
    drainageBonus := 2 / 5
    treeLine := 1800
    bushLine := 2200
    grassLine := 2500 }

/-- The elevation factor of `calculate_vegetation_density_alpine`
(src lines 2236-2265). -/
def elevationFactor (elevation : ℚ) (params : VegetationParams) : ℚ :=
  if elevation < params.minElevation then 0
  else if elevation ≤ params.treeLine then
    1 - ((elevation - params.minElevation)
      / (params.treeLine - params.minElevation)) * (3 / 10)
  else if elevation ≤ params.bushLine then
    7 / 10 - ((elevation - params.treeLine)
      / (params.bushLine - params.treeLine)) * (2 / 5)
  else if elevation ≤ params.grassLine then
    3 / 10 - ((elevation - params.bushLine)
      / (params.grassLine - params.bushLine)) * (1 / 5)
  else 0

/-- The slope factor of `calculate_vegetation_density_alpine`
(src lines 2267-2276). -/
def slopeFactor (slope : ℚ) (params : VegetationParams) : ℚ :=
  if slope > params.maxSlope then 0
  else if slope > 30 then
    1 - ((slope - 30) / (params.maxSlope - 30)) * (4 / 5)
  else 1

/-- The aspect factor of `calculate_vegetation_density_alpine`
(src lines 2278-2289): south faces (135°–225°) get `1 - aspectModifier`,
north faces (≥315° or ≤45°) get `1 + aspectModifier`, otherwise `1`. -/
def aspectFactor (aspect : ℚ) (params : VegetationParams) : ℚ :=
  if 135 ≤ aspect ∧ aspect ≤ 225 then 1 - params.aspectModifier
  else if 315 ≤ aspect ∨ aspect ≤ 45 then 1 + params.aspectModifier
  else 1

/-- The drainage factor of `calculate_vegetation_density_alpine`
(src line 2292). -/
def drainageFactorVeg (drainage : ℚ) (params : VegetationParams) : ℚ :=
  1 + drainage * params.drainageBonus

/-- The combined, clamped density of `calculate_vegetation_density_alpine`
(src lines 2294-2301), before the 8-bit quantization. -/
def vegetationDensityReal (elevation slope aspect drainage : ℚ)
    (params : VegetationParams) : ℚ :=
  let final := elevationFactor elevation params * slopeFactor slope params
    * aspectFactor aspect params * drainageFactorVeg drainage params
  if final < 0 then 0 else if final > 1 then 1 else final

/-- `calculate_vegetation_density_alpine` (src lines 2229-2305): returns `0`
when the parameter set is disabled, else the clamped density scaled to
`[0,255]` with the truncating `(uint8_t)` cast. -/
def calculate_vegetation_density_alpine (elevation slope aspect drainage : ℚ)
    (params : VegetationParams) : Nat :=
  if params.enabled = false then 0
  else cCastUnsigned (vegetationDensityReal elevation slope aspect drainage
    params * 255)

/-- `SRTM3_SIZE = 1201*1201*2` bytes (src line 312). -/
def SRTM3_SIZE : Nat := 1201 * 1201 * 2

/-- `SRTM1_SIZE = 3601*3601*2` bytes (src line 313). -/
def SRTM1_SIZE : Nat := 3601 * 3601 * 2

/-- Digit-accumulation loop of the C `atoi`: consume decimal digits until the
first non-digit. -/
def atoiDigits : List Char → Nat → Nat
  | [], acc => acc
  | c :: cs, acc =>
    if c.isDigit then atoiDigits cs (acc * 10 + (c.toNat - 48)) else acc

/-- C `atoi`: skip leading whitespace, optional sign, then decimal digits up
to the first non-digit character. -/
def atoi (s : List Char) : Int :=
  let s1 := s.dropWhile fun c =>
    c == ' ' || c == '\t' || c == '\n' || c == '\r'
  match s1 with
  | '-' :: rest => -(atoiDigits rest 0 : Int)
  | '+' :: rest => (atoiDigits rest 0 : Int)
  | _ => (atoiDigits s1 0 : Int)

/-- `memcpy(sTmp, &name[pos], 4); sTmp[4] = 0`: the 4-character field at a
fixed offset of the filename. -/
def fieldAt (name : List Char) (pos : Nat) : List Char :=
  (name.drop pos).take 4

/-- Raster type and dimensions decided for one input file. -/
structure RasterId where
  srtmType : Int
  width : Nat
  height : Nat
deriving DecidableEq

/-- The raster-type / dimension determination of `main` (src lines 500-567):
exact byte-length match against the two SRTM sizes; otherwise, for filenames
of length ≥ 15, `atoi` on the 4-character fields at offsets 5 and 10, a
plausibility check `0 < dim ≤ 65536` on both, and an overflow-protected
verification that the file size equals `width*height*2`; any failure marks
the raster `SRTM_UNKNOWN` (and `main` then rejects the file). -/
def determineRasterId (name : List Char) (fileSize : Nat) : RasterId :=
  if fileSize = SRTM3_SIZE then ⟨SRTM3, 1201, 1201⟩
  else if fileSize = SRTM1_SIZE then ⟨SRTM1, 3601, 3601⟩
  else
    let parsed : Option (Nat × Nat) :=
      if name.length ≥ 15 then
        let parsedWidth := atoi (fieldAt name 5)
        let parsedHeight := atoi (fieldAt name 10)
        if 0 < parsedWidth ∧ parsedWidth ≤ 65536
            ∧ 0 < parsedHeight ∧ parsedHeight ≤ 65536 then
          some (parsedWidth.toNat, parsedHeight.toNat)
        else none
      else none
    match parsed with
    | none => ⟨SRTM_UNKNOWN, 0, 0⟩
    | some (w, h) =>
      match safe_multiply_size_t w h with
      | none => ⟨SRTM_UNKNOWN, w, h⟩
      | some expectedPixels =>
        match safe_multiply_size_t expectedPixels 2 with
        | none => ⟨SRTM_UNKNOWN, w, h⟩
        | some expectedSize =>
          if fileSize ≠ expectedSize then ⟨SRTM_UNKNOWN, w, h⟩
          else ⟨(w * h : Nat), w, h⟩

/-- C3: a raw SRTM sample whose big-endian file pattern is the sentinel
`0x8000` decodes to exactly `0`, increments the per-raster NoData counter by
one, and leaves the pre-scan min/max untouched (it is excluded from
valid-sample min/max tracking). -/
theorem sentinel_decodes_to_zero_and_is_excluded (srtmType : Int)
    (h : srtmType = SRTM3 ∨ srtmType = SRTM1) :
    processElevationValue (rawFromFilePattern 0x8000) srtmType
      = (NODATA_REPLACEMENT, 1)
    ∧ ∀ acc : PrescanAcc,
        prescanStep srtmType acc (rawFromFilePattern 0x8000)
          = ⟨acc.currentMin, acc.currentMax, acc.noDataCount + 1⟩ := by
  have hpe : processElevationValue (rawFromFilePattern 0x8000) srtmType
      = (NODATA_REPLACEMENT, 1) := by
    rcases h with h | h <;> subst h <;> decide
  refine ⟨hpe, fun acc => ?_⟩
  simp [prescanStep, hpe, NODATA_REPLACEMENT]

/-- Witness for C3 at `srtmType = SRTM3` and the initial accumulator. -/
theorem sentinel_decodes_to_zero_and_is_excluded_witness :
    processElevationValue (rawFromFilePattern 0x8000) SRTM3
      = (NODATA_REPLACEMENT, 1)
    ∧ prescanStep SRTM3 ⟨9999, 0, 0⟩ (rawFromFilePattern 0x8000)
      = ⟨9999, 0, 1⟩ := by
  have h := sentinel_decodes_to_zero_and_is_excluded SRTM3 (Or.inl rfl)
  exact ⟨h.1, h.2 ⟨9999, 0, 0⟩⟩

/-- C4: for every raw 16-bit input sample and every raster type, the decoded
value returned by `processElevationValue` lies in `[0, 6000]`; out-of-range
values are clamped, never rejected. -/
theorem processElevationValue_in_range (rawValue srtmType : Int) :
    0 ≤ (processElevationValue rawValue srtmType).1
    ∧ (processElevationValue rawValue srtmType).1 ≤ MAX_HEIGHT := by
  unfold processElevationValue NODATA_REPLACEMENT MAX_HEIGHT
  simp only [apply_ite Prod.fst]
  split_ifs <;> simp_all

/-- C10: with alpha-for-NoData enabled (both the 8-bit RGBA and the 16-bit
grayscale+alpha formats), the alpha channel is `0` exactly when the decoded
elevation equals `0`, and fully opaque otherwise.  The concrete conjuncts
show that a sea-level sample (file pattern `0x0000`, decoded `0`, not counted
as NoData) and a clamped negative sample (big-endian `-1025`, decoded `0`,
not counted as NoData) are also made fully transparent, not only replaced
sentinels. -/
theorem alpha_zero_iff_decoded_zero :
    (∀ srtmType eMin eMax raw : Int,
      (renderPixelRGBA8 srtmType eMin eMax raw).a
        = if (processElevationValue raw srtmType).1 = 0 then 0 else 255)
    ∧ (∀ srtmType eMin eMax raw : Int,
      (renderPixelYA16 srtmType eMin eMax raw).a
        = if (processElevationValue raw srtmType).1 = 0 then 0 else 65535)
    ∧ processElevationValue (rawFromFilePattern 0) SRTM3 = (0, 0)
    ∧ processElevationValue (rawFromFilePattern (toUInt16pattern (-1025)))
        SRTM3 = (0, 0)
    ∧ (renderPixelRGBA8 SRTM3 0 500 (rawFromFilePattern 0)).a = 0 := by
  refine ⟨fun srtmType eMin eMax raw => ?_, fun srtmType eMin eMax raw => ?_,
    by decide, by decide, ?_⟩
  · simp [renderPixelRGBA8, NODATA_REPLACEMENT]
  · simp [renderPixelYA16, NODATA_REPLACEMENT]
  · simp [renderPixelRGBA8, NODATA_REPLACEMENT]
    decide

/-- C5: the file named `N49E004_1000x2000.hgt` with byte length
`1000·2000·2` is NOT parsed as a 1000×2000 Custom raster: the hard-coded
offsets 5 and 10 read the fields `"04_1"` and `"00x2"`, `atoi` yields
width 4 and height 0, the height fails the plausibility check, and the
raster is marked `SRTM_UNKNOWN`, so the file is rejected. -/
theorem custom_filename_parse_rejects_claimed_format :
    determineRasterId ("N49E004_1000x2000.hgt".toList) (1000 * 2000 * 2)
      = ⟨SRTM_UNKNOWN, 0, 0⟩
    ∧ atoi (fieldAt ("N49E004_1000x2000.hgt".toList) 5) = 4
    ∧ atoi (fieldAt ("N49E004_1000x2000.hgt".toList) 10) = 0 := by
  decide

/-- C7: after the pre-scan pass, the per-file record's `iMinElevation` and
`iMaxElevation` fields still hold their initial `0`s — the valid-sample
min/max (here `500`/`500` for an all-500 file) is tracked only in the locals
`iCurrentMin/MaxElevation` and never stored into the record — so the
metadata writer's `original_min`/`original_max` read `0`/`0`. -/
theorem fileinfo_minmax_never_recorded :
    (prescanFileInfo SRTM3 (List.replicate 4 (rawFromFilePattern 500))).1
      = ⟨0, 0, 0⟩
    ∧ (prescanFileInfo SRTM3
        (List.replicate 4 (rawFromFilePattern 500))).2.currentMin = 500
    ∧ (prescanFileInfo SRTM3
        (List.replicate 4 (rawFromFilePattern 500))).2.currentMax = 500
    ∧ metadataOriginalRange
        (prescanFileInfo SRTM3 (List.replicate 4 (rawFromFilePattern 500))).1
      = (0, 0) := by
  decide

/-- C6 counterexample: at dimensions `2^31 - 1 × 2^31 - 1` (the largest
positive `int` dimensions, which pass unchanged through the `size_t → int`
parameter conversion, second conjunct) with scale factor 10, the pixel-count
computation for the upsampled raster overflows `size_t` and
`AddProceduralDetail` returns no raster — yet the worker does NOT fail the
file: it continues with the original data and dimensions, leaving the error
flag clear. -/
theorem overflow_in_detail_does_not_fail_file :
    (AddProceduralDetail (fun _ => 0) (fun _ => 0)
      (sizeTOfCInt (cIntOfSizeT 2147483647))
      (sizeTOfCInt (cIntOfSizeT 2147483647)) 10 0 0 SRTM3).isSome = false
    ∧ sizeTOfCInt (cIntOfSizeT 2147483647) = 2147483647
    ∧ workerDetailStage (fun _ => 0) (fun _ => 0) 2147483647 2147483647
        10 0 0 SRTM3 = ⟨2147483647, 2147483647, false, true⟩ := by
  refine ⟨by decide, by decide, by decide⟩

/-- C6 (amended): when a size computation overflows during detail synthesis,
`AddProceduralDetail` (called on the worker's dimensions as its `int`
parameters receive them) returns `NULL`, and `processFileWorker` prints a
warning and continues processing the file with the original raster and
dimensions — the file is not failed (`globalResult` is left untouched) and
the batch continues. -/
theorem overflow_in_detail_falls_back_to_original (sqrtq : ℚ → ℚ)
    (data : Nat → Int) (width height scaleFactor : Nat) (detailIntensity : ℚ)
    (seed srtmType : Int)
    (h : (AddProceduralDetail sqrtq data
      (sizeTOfCInt (cIntOfSizeT width)) (sizeTOfCInt (cIntOfSizeT height))
      scaleFactor detailIntensity seed srtmType).isSome = false) :
    workerDetailStage sqrtq data width height scaleFactor detailIntensity
      seed srtmType = ⟨width, height, false, true⟩ := by
  unfold workerDetailStage
  cases heq : AddProceduralDetail sqrtq data
      (sizeTOfCInt (cIntOfSizeT width)) (sizeTOfCInt (cIntOfSizeT height))
      scaleFactor detailIntensity seed srtmType with
  | none => rfl
  | some v => rw [heq] at h; simp at h

/-- Witness for C6 (amended) at the overflowing `2^31 - 1 × 2^31 - 1`,
scale 10 instance. -/
theorem overflow_in_detail_falls_back_to_original_witness :
    (AddProceduralDetail (fun _ => 0) (fun _ => (0 : Int))
      (sizeTOfCInt (cIntOfSizeT 2147483647))
      (sizeTOfCInt (cIntOfSizeT 2147483647)) 10 0 0 SRTM1).isSome = false
    ∧ workerDetailStage (fun _ => 0) (fun _ => (0 : Int)) 2147483647
        2147483647 10 0 0 SRTM1 = ⟨2147483647, 2147483647, false, true⟩ :=
  ⟨by decide,
   overflow_in_detail_falls_back_to_original (fun _ => 0) (fun _ => (0 : Int))
     2147483647 2147483647 10 0 0 SRTM1 (by decide)⟩

theorem prescanStep_const500 (c : Nat) :
    prescanStep SRTM3 ⟨500, 500, c⟩ (rawFromFilePattern 500) = ⟨500, 500, c⟩ := by
  have hpe : processElevationValue (rawFromFilePattern 500) SRTM3 = (500, 0) := by
    decide
  simp [prescanStep, hpe, NODATA_REPLACEMENT]

theorem prescanFoldl_const500 (n : Nat) (c : Nat) :
    List.foldl (prescanStep SRTM3) ⟨500, 500, c⟩
      (List.replicate n (rawFromFilePattern 500)) = ⟨500, 500, c⟩ := by
  induction n with
  | zero => rfl
  | succ k ih =>
    rw [List.replicate_succ, List.foldl_cons, prescanStep_const500]
    exact ih

theorem prescanFold_const500 (n : Nat) :
    prescanFold SRTM3 (List.replicate (n + 1) (rawFromFilePattern 500))
      = ⟨500, 500, 0⟩ := by
  unfold prescanFold
  rw [List.replicate_succ, List.foldl_cons]
  have h1 : prescanStep SRTM3 ⟨9999, 0, 0⟩ (rawFromFilePattern 500)
      = ⟨500, 500, 0⟩ := by decide
  rw [h1]
  exact prescanFoldl_const500 n 0

theorem renderPixelRGB_degenerate_range :
    renderPixelRGB SRTM3 500 500 (rawFromFilePattern 500) = 127 := by
  have hv : (processElevationValue (rawFromFilePattern 500) SRTM3).1 = 500 := by
    decide
  simp only [renderPixelRGB, hv, normalizeElevation,
    ApplyCurveMapping_linear_gamma1, cCastUnsigned, truncQ]
  norm_num
  rfl

theorem processFile_const500_eq :
    processFileNoDetailRGB SRTM3 (-1) (-1)
        (List.replicate (1201 * 1201) (rawFromFilePattern 500))
      = List.replicate (1201 * 1201) 127 := by
  unfold processFileNoDetailRGB
  have hn : 1201 * 1201 = 1442400 + 1 := by norm_num
  rw [hn, prescanFold_const500]
  have hover : mergeOverall overallInit ⟨500, 500, 0⟩ = (500, 500) := by decide
  have heff : effectiveHeights (-1) (-1) (500, 500) = (500, 500) := by decide
  simp only [hover, heff, List.map_replicate, renderPixelRGB_degenerate_range]

/-- C1 counterexample: for the 1201×1201 raster whose every sample decodes to
elevation 500 (no NoData), processed with `enableDetail = false`, the Linear
curve and `gamma = 1`, the value 255 appears nowhere in the (nonempty) output
pixel buffer — the claim that every channel equals 255 is false. -/
theorem constant500_raster_not_all_255 :
    ¬ (255 : Nat) ∈ processFileNoDetailRGB SRTM3 (-1) (-1)
        (List.replicate (1201 * 1201) (rawFromFilePattern 500))
    ∧ (processFileNoDetailRGB SRTM3 (-1) (-1)
        (List.replicate (1201 * 1201) (rawFromFilePattern 500))).length
      = 1201 * 1201 := by
  rw [processFile_const500_eq]
  constructor
  · intro hm
    have h := (List.mem_replicate.mp hm).2
    norm_num at h
  · exact List.length_replicate _ _

/-- C1 (amended): for the 1201×1201 raster whose every sample decodes to
elevation 500 with `enableDetail = false`, Linear curve and `gamma = 1`, the
output buffer is uniform gray with every channel equal to 127: the file's
min equals its max (500), so the render loop's normalization falls back to
`0.5` and `(unsigned char)(0.5f * 255.0f)` truncates to 127 in every
pixel. -/
theorem constant500_raster_uniform_127 :
    processFileNoDetailRGB SRTM3 (-1) (-1)
        (List.replicate (1201 * 1201) (rawFromFilePattern 500))
      = List.replicate (1201 * 1201) 127 :=
  processFile_const500_eq

theorem cCastUnsigned_mono (u v : ℚ) (hu : 0 ≤ u) (huv : u ≤ v) :
    cCastUnsigned u ≤ cCastUnsigned v := by
  unfold cCastUnsigned truncQ
  rw [if_neg (not_lt.mpr hu), if_neg (not_lt.mpr (le_trans hu huv))]
  exact Int.toNat_le_toNat (Int.floor_le_floor huv)

theorem clampAspect_le (P : ℚ) :
    (if (7 / 10) * P < 0 then (0 : ℚ)
     else if (7 / 10) * P > 1 then 1 else (7 / 10) * P)
      ≤ (if (13 / 10) * P < 0 then 0
         else if (13 / 10) * P > 1 then 1 else (13 / 10) * P) := by
  rcases le_or_lt 0 P with hP | hP
  · split_ifs <;> nlinarith
  · split_ifs <;> nlinarith

theorem clampAspect_nonneg (P : ℚ) :
    0 ≤ (if (7 / 10) * P < 0 then (0 : ℚ)
         else if (7 / 10) * P > 1 then 1 else (7 / 10) * P) := by
  split_ifs <;> linarith

theorem clampAspect_lt (P : ℚ) (hP : 0 < P)
    (hlt : (if (7 / 10) * P < 0 then (0 : ℚ)
            else if (7 / 10) * P > 1 then 1 else (7 / 10) * P) < 1) :
    (if (7 / 10) * P < 0 then (0 : ℚ)
     else if (7 / 10) * P > 1 then 1 else (7 / 10) * P)
      < (if (13 / 10) * P < 0 then 0
         else if (13 / 10) * P > 1 then 1 else (13 / 10) * P) := by
  have h7 : 0 < (7 / 10) * P := by positivity
  rw [if_neg (not_lt.mpr (le_of_lt h7))] at hlt ⊢
  have h71 : ¬ ((7 / 10) * P > 1) := by
    intro hgt
    rw [if_pos hgt] at hlt
    exact lt_irrefl 1 hlt
  rw [if_neg h71] at hlt ⊢
  have h13 : 0 < (13 / 10) * P := by positivity
  rw [if_neg (not_lt.mpr (le_of_lt h13))]
  split_ifs with hgt
  · exact hlt
  · nlinarith

/-- C8 (amended): with the Alpine parameter set (`aspectModifier = 0.3 > 0`),
the vegetation density of a south-facing (180°) pixel never exceeds that of
the otherwise-identical north-facing (0°) pixel; and the clamped real-valued
density is strictly smaller whenever the product of the elevation, slope and
drainage factors is strictly positive and the south-facing density is below
saturation (`< 1`).  Strictness can fail — see the counterexample — when
that product is zero (e.g. below `minElevation`), when both densities
saturate at 1, or by 8-bit quantization. -/
theorem vegetation_density_south_le_north (elevation slope drainage : ℚ) :
    calculate_vegetation_density_alpine elevation slope 180 drainage
        alpineParams
      ≤ calculate_vegetation_density_alpine elevation slope 0 drainage
        alpineParams
    ∧ (0 < elevationFactor elevation alpineParams
          * slopeFactor slope alpineParams
          * drainageFactorVeg drainage alpineParams →
       vegetationDensityReal elevation slope 180 drainage alpineParams < 1 →
       vegetationDensityReal elevation slope 180 drainage alpineParams
         < vegetationDensityReal elevation slope 0 drainage alpineParams) := by
  have ha180 : aspectFactor 180 alpineParams = 7 / 10 := by
    norm_num [aspectFactor, alpineParams]
  have ha0 : aspectFactor 0 alpineParams = 13 / 10 := by
    norm_num [aspectFactor, alpineParams]
  have h180 : vegetationDensityReal elevation slope 180 drainage alpineParams
      = if (7 / 10) * (elevationFactor elevation alpineParams
            * slopeFactor slope alpineParams
            * drainageFactorVeg drainage alpineParams) < 0 then 0
        else if (7 / 10) * (elevationFactor elevation alpineParams
            * slopeFactor slope alpineParams
            * drainageFactorVeg drainage alpineParams) > 1 then 1
        else (7 / 10) * (elevationFactor elevation alpineParams
            * slopeFactor slope alpineParams
            * drainageFactorVeg drainage alpineParams) := by
    simp only [vegetationDensityReal, ha180]
    rw [show elevationFactor elevation alpineParams
        * slopeFactor slope alpineParams * (7 / 10)
        * drainageFactorVeg drainage alpineParams
      = (7 / 10) * (elevationFactor elevation alpineParams
        * slopeFactor slope alpineParams
        * drainageFactorVeg drainage alpineParams) from by ring]
  have h0 : vegetationDensityReal elevation slope 0 drainage alpineParams
      = if (13 / 10) * (elevationFactor elevation alpineParams
            * slopeFactor slope alpineParams
            * drainageFactorVeg drainage alpineParams) < 0 then 0
        else if (13 / 10) * (elevationFactor elevation alpineParams
            * slopeFactor slope alpineParams
            * drainageFactorVeg drainage alpineParams) > 1 then 1
        else (13 / 10) * (elevationFactor elevation alpineParams
            * slopeFactor slope alpineParams
            * drainageFactorVeg drainage alpineParams) := by
    simp only [vegetationDensityReal, ha0]
    rw [show elevationFactor elevation alpineParams
        * slopeFactor slope alpineParams * (13 / 10)
        * drainageFactorVeg drainage alpineParams
      = (13 / 10) * (elevationFactor elevation alpineParams
        * slopeFactor slope alpineParams
        * drainageFactorVeg drainage alpineParams) from by ring]
  constructor
  · simp only [calculate_vegetation_density_alpine]
    rw [show alpineParams.enabled = true from rfl]
    simp only [Bool.true_eq_false, if_false]
    apply cCastUnsigned_mono
    · rw [h180]
      have := clampAspect_nonneg (elevationFactor elevation alpineParams
        * slopeFactor slope alpineParams
        * drainageFactorVeg drainage alpineParams)
      positivity
    · rw [h180, h0]
      exact mul_le_mul_of_nonneg_right (clampAspect_le _) (by norm_num)
  · intro hP hlt
    rw [h180] at hlt
    rw [h180, h0]
    exact clampAspect_lt _ hP hlt

/-- C8 counterexample: at elevation 0 (below the Alpine `minElevation` of
700 m) with slope 0 and drainage 0, the south-facing (180°) and north-facing
(0°) densities are both 0, so the south-facing density is NOT strictly less
than the north-facing one even though `aspectModifier = 0.3 > 0`. -/
theorem vegetation_aspect_strictness_fails_below_vegetation_zone :
    0 < alpineParams.aspectModifier
    ∧ calculate_vegetation_density_alpine 0 0 180 0 alpineParams = 0
    ∧ calculate_vegetation_density_alpine 0 0 0 0 alpineParams = 0
    ∧ ¬ calculate_vegetation_density_alpine 0 0 180 0 alpineParams
        < calculate_vegetation_density_alpine 0 0 0 0 alpineParams := by
  have h180 : calculate_vegetation_density_alpine 0 0 180 0 alpineParams
      = 0 := by
    norm_num [calculate_vegetation_density_alpine, vegetationDensityReal,
      elevationFactor, slopeFactor, aspectFactor, drainageFactorVeg,
      alpineParams, cCastUnsigned, truncQ]
  have h0 : calculate_vegetation_density_alpine 0 0 0 0 alpineParams
      = 0 := by
    norm_num [calculate_vegetation_density_alpine, vegetationDensityReal,
      elevationFactor, slopeFactor, aspectFactor, drainageFactorVeg,
      alpineParams, cCastUnsigned, truncQ]
  refine ⟨by norm_num [alpineParams], h180, h0, ?_⟩
  rw [h180, h0]
  omega

/-- Witness for C8 (amended) at elevation 700, slope 0, drainage 0. -/
theorem vegetation_density_south_le_north_witness :
    0 < elevationFactor 700 alpineParams * slopeFactor 0 alpineParams
        * drainageFactorVeg 0 alpineParams
    ∧ vegetationDensityReal 700 0 180 0 alpineParams < 1
    ∧ calculate_vegetation_density_alpine 700 0 180 0 alpineParams
        ≤ calculate_vegetation_density_alpine 700 0 0 0 alpineParams
    ∧ vegetationDensityReal 700 0 180 0 alpineParams
        < vegetationDensityReal 700 0 0 0 alpineParams := by
  have h := vegetation_density_south_le_north 700 0 0
  have hP : 0 < elevationFactor 700 alpineParams * slopeFactor 0 alpineParams
      * drainageFactorVeg 0 alpineParams := by
    norm_num [elevationFactor, slopeFactor, drainageFactorVeg, alpineParams]
  have hlt : vegetationDensityReal 700 0 180 0 alpineParams < 1 := by
    norm_num [vegetationDensityReal, elevationFactor, slopeFactor,
      aspectFactor, drainageFactorVeg, alpineParams]
  exact ⟨hP, hlt, h.1, h.2 hP hlt⟩

theorem simpleNoiseHash_lt (x y seed : Int) :
    simpleNoiseHash x y seed < 2 ^ 31 := by
  unfold simpleNoiseHash
  exact Nat.mod_lt _ (by norm_num)

theorem abs_SimpleNoise_le_one (x y seed : Int) :
    |SimpleNoise x y seed| ≤ 1 := by
  unfold SimpleNoise
  have hlt := simpleNoiseHash_lt x y seed
  have h2 : (simpleNoiseHash x y seed : ℚ) ≤ 2147483647 := by
    have hn : simpleNoiseHash x y seed ≤ 2147483647 := by omega
    exact_mod_cast hn
  have h0 : (0 : ℚ) ≤ (simpleNoiseHash x y seed : ℚ) := Nat.cast_nonneg _
  have hdiv : (simpleNoiseHash x y seed : ℚ) / 1073741824 ≤ 2 := by
    rw [div_le_iff₀ (by norm_num : (0 : ℚ) < 1073741824)]
    linarith
  have hdiv0 : (0 : ℚ) ≤ (simpleNoiseHash x y seed : ℚ) / 1073741824 :=
    div_nonneg h0 (by norm_num)
  rw [abs_le]
  constructor <;> linarith

theorem abs_blend_le_one (a b t : ℚ) (ht0 : 0 ≤ t) (ht1 : t ≤ 1)
    (ha : |a| ≤ 1) (hb : |b| ≤ 1) : |a * (1 - t) + b * t| ≤ 1 := by
  rw [abs_le] at ha hb ⊢
  constructor <;> nlinarith [ha.1, ha.2, hb.1, hb.2]

theorem abs_BilinearNoiseInterpolate_le_one (x y : ℚ) (seed : Int) :
    |BilinearNoiseInterpolate x y seed| ≤ 1 := by
  unfold BilinearNoiseInterpolate
  have hfx0 : (0 : ℚ) ≤ x - (⌊x⌋ : Int) := by
    have := Int.floor_le x
    simp only [sub_nonneg]
    exact_mod_cast this
  have hfx1 : x - ((⌊x⌋ : Int) : ℚ) ≤ 1 := by
    have := Int.lt_floor_add_one x
    push_cast at this ⊢
    linarith
  have hfy0 : (0 : ℚ) ≤ y - (⌊y⌋ : Int) := by
    have := Int.floor_le y
    simp only [sub_nonneg]
    exact_mod_cast this
  have hfy1 : y - ((⌊y⌋ : Int) : ℚ) ≤ 1 := by
    have := Int.lt_floor_add_one y
    push_cast at this ⊢
    linarith
  exact abs_blend_le_one _ _ _ hfy0 hfy1
    (abs_blend_le_one _ _ _ hfx0 hfx1 (abs_SimpleNoise_le_one _ _ _)
      (abs_SimpleNoise_le_one _ _ _))
    (abs_blend_le_one _ _ _ hfx0 hfx1 (abs_SimpleNoise_le_one _ _ _)
      (abs_SimpleNoise_le_one _ _ _))

theorem fractalAcc_bound (x y persistence : ℚ) (seed : Int) (hp : 0 ≤ persistence) :
    ∀ (k i : Nat) (frequency amplitude : ℚ), 0 ≤ amplitude →
      |(fractalAcc x y persistence seed k i frequency amplitude).1|
        ≤ (fractalAcc x y persistence seed k i frequency amplitude).2
      ∧ 0 ≤ (fractalAcc x y persistence seed k i frequency amplitude).2 := by
  intro k
  induction k with
  | zero =>
    intro i f a _
    simp [fractalAcc]
  | succ k ih =>
    intro i f a ha
    have hrest := ih (i + 1) (f * 2) (a * persistence)
      (mul_nonneg ha hp)
    have hv := abs_BilinearNoiseInterpolate_le_one (x * f) (y * f)
      (seed + (i : Int))
    simp only [fractalAcc]
    constructor
    · calc |BilinearNoiseInterpolate (x * f) (y * f) (seed + (i : Int)) * a
            + (fractalAcc x y persistence seed k (i + 1) (f * 2)
                (a * persistence)).1|
          ≤ |BilinearNoiseInterpolate (x * f) (y * f) (seed + (i : Int))| * a
            + |(fractalAcc x y persistence seed k (i + 1) (f * 2)
                (a * persistence)).1| := by
            refine le_trans (abs_add _ _) ?_
            rw [abs_mul, abs_of_nonneg ha]
      _ ≤ 1 * a + (fractalAcc x y persistence seed k (i + 1) (f * 2)
            (a * persistence)).2 := by
            have := hrest.1
            nlinarith [abs_nonneg ((fractalAcc x y persistence seed k (i + 1)
              (f * 2) (a * persistence)).1)]
      _ = a + (fractalAcc x y persistence seed k (i + 1) (f * 2)
            (a * persistence)).2 := by ring
    · have := hrest.2
      linarith

/-- C9: for every input position, octave count between 1 and 8, persistence
in `[0, 1]`, and any scale and seed, the `FractalNoise` output lies within
`[-1.05, 1.05]` — the amplitude normalization keeps the octave sum within the
summed octave amplitudes. -/
theorem fractalNoise_within_bounds (x y : ℚ) (octaves : Nat)
    (persistence scale : ℚ) (seed : Int) (h1 : 1 ≤ octaves)
    (h8 : octaves ≤ 8) (hp0 : 0 ≤ persistence) (hp1 : persistence ≤ 1) :
    -(21 / 20) ≤ FractalNoise x y octaves persistence scale seed
    ∧ FractalNoise x y octaves persistence scale seed ≤ 21 / 20 := by
  obtain ⟨k, rfl⟩ : ∃ k, octaves = k + 1 := ⟨octaves - 1, by omega⟩
  unfold FractalNoise
  simp only [fractalAcc]
  have hrest := fractalAcc_bound x y persistence seed hp0 k 1 (scale * 2)
    (1 * persistence) (by linarith [hp0])
  have hv := abs_BilinearNoiseInterpolate_le_one (x * scale) (y * scale)
    (seed + ((0 : Nat) : Int))
  set t := (fractalAcc x y persistence seed k 1 (scale * 2)
    (1 * persistence)).1
  set m := (fractalAcc x y persistence seed k 1 (scale * 2)
    (1 * persistence)).2
  have hm : (0 : ℚ) < 1 + m := by linarith [hrest.2]
  have habs : |BilinearNoiseInterpolate (x * scale) (y * scale)
      (seed + ((0 : Nat) : Int)) * 1 + t| ≤ 1 + m := by
    refine le_trans (abs_add _ _) ?_
    rw [abs_mul, abs_one, mul_one]
    linarith [hrest.1]
  have hq : |(BilinearNoiseInterpolate (x * scale) (y * scale)
      (seed + ((0 : Nat) : Int)) * 1 + t) / (1 + m)| ≤ 1 := by
    rw [abs_div, abs_of_pos hm, div_le_one hm]
    exact habs
  rw [abs_le] at hq
  constructor <;> [linarith [hq.1]; linarith [hq.2]]

/-- Witness for C9 at the origin with one octave, persistence 1, scale 1,
seed 0. -/
theorem fractalNoise_within_bounds_witness :
    (1 ≤ 1 ∧ (0 : ℚ) ≤ 1)
    ∧ -(21 / 20) ≤ FractalNoise 0 0 1 1 1 0
    ∧ FractalNoise 0 0 1 1 1 0 ≤ 21 / 20 := by
  have h := fractalNoise_within_bounds 0 0 1 1 1 0 (by norm_num)
    (by norm_num) (by norm_num) (by norm_num)
  exact ⟨⟨le_refl 1, by norm_num⟩, h.1, h.2⟩
